import Mathlib

/-!
Verification of the iotedge certificate issuance pipeline
(edgelet-http-workload/src/server/cert/server.rs) and the request logging
decorator (edgelet-http/src/logging.rs), as a shallow embedding.

The handler orchestration (`handle`) and the logging decorator are embedded
from the source. Collaborators that live outside the provided sources
(the error module, edgelet-utils validation macros, `compute_validity`,
`refresh_cert`, route `Parameters`) are modelled from the specification,
each marked in its doc comment.
-/

namespace Edgelet

/-- Error taxonomy of the certificate pipeline.
Modelled from the spec: the error module (error.rs) of the workload crate is
not under src/; the variants follow section 7 of the spec, with `OutOfRange`
carrying its bounds and `StoreError` wrapping the underlying cause's display
text. -/
inductive ErrorKind where
  | BadParam
  | BadBody
  | EmptyArgument
  | InvalidTimestamp
  | OutOfRange (low : Int) (high : Int)
  | StoreError (cause : String)
  | IoError
  deriving DecidableEq, Repr

/-- Display text of each error.
Modelled from the spec: error display lives in error.rs, not under src/; the
exact strings are the ones asserted by the handler's own tests in server.rs
(missing_name, bad_body, empty_expiration, invalid_expiration,
past_expiration, create_cert_fails, pem_fails, get_cert_time_fails). -/
def ErrorKind.message : ErrorKind → String
  | .BadParam => "Bad parameter"
  | .BadBody => "Bad body"
  | .EmptyArgument => "Argument is empty or only has whitespace"
  | .InvalidTimestamp => "Invalid ISO 8601 date"
  | .OutOfRange low high =>
      "out of range [" ++ toString low ++ ", " ++ toString high ++ ")"
  | .StoreError cause => cause
  | .IoError => "An IO error occurred"

/-- Status code of each error: 400 Bad Request for BadParam and BadBody,
500 Internal Server Error otherwise. Modelled from the spec, section 4.4
(the IntoResponse impl in error.rs is not under src/). -/
def ErrorKind.status : ErrorKind → Nat
  | .BadParam => 400
  | .BadBody => 400
  | .EmptyArgument => 500
  | .InvalidTimestamp => 500
  | .OutOfRange _ _ => 500
  | .StoreError _ => 500
  | .IoError => 500

/-- Private-key sub-record of the wire response body: a type tag, and the
inline bytes or the reference, whichever the tag selects. -/
structure PrivateKeyResponse where
  type_ : String
  bytes : Option String
  ref_ : Option String
  deriving DecidableEq, Repr

/-- Success body of the wire response: certificate PEM, private-key record,
and the certificate's valid-to instant. -/
structure CertificateResponse where
  certificate : String
  private_key : PrivateKeyResponse
  expiration : Int
  deriving DecidableEq, Repr

/-- Body of a wire response: either a certificate record or an error record
holding a human-readable message. -/
inductive ResponseBody where
  | success (cert : CertificateResponse)
  | failure (message : String)
  deriving DecidableEq, Repr

/-- A wire response: status code plus body. -/
structure Response where
  status : Nat
  body : ResponseBody
  deriving DecidableEq, Repr

/-- Modelled from the spec, section 4.4: an error maps to a response carrying
its status code and a message record built from its display text. -/
def into_response (e : ErrorKind) : Response :=
  { status := e.status, body := .failure e.message }

/-- The certificate type requested by this handler (server.rs uses
CertificateType::Server only). -/
inductive CertificateType where
  | Server
  deriving DecidableEq, Repr

/-- Properties handed to the certificate store's create call
(edgelet-core's CertificateProperties, constructed in server.rs line 61):
validity in seconds (u64), common name, certificate type and alias. -/
structure CertificateProperties where
  validity_in_secs : Nat
  common_name : String
  cert_alias : String
  certificate_type : CertificateType
  deriving DecidableEq, Repr

/-- Private key material returned by the store: inline PEM key bytes or an
opaque reference, per the spec's data model. -/
inductive PrivateKey where
  | Key (bytes : String)
  | Ref (r : String)
  deriving DecidableEq, Repr

/-- Modelled from the spec: the opaque Certificate returned by the store.
Each accessor can fail (the test store can be told to fail pem, private key
or valid-to); a failed read is an internal IoError in the mapper. -/
structure Cert where
  pem : Except Unit String
  private_key : Except Unit PrivateKey
  get_valid_to : Except Unit Int

/-- A string is blank when it is empty or consists only of whitespace, the
condition the Rust side tests with trim().is_empty(). -/
def isBlank (s : String) : Bool :=
  s.data.all (fun c => c.isWhitespace)

/-- Modelled from the spec: the ensure_not_empty! macro of edgelet-utils
(not under src/) — a required string that is empty or whitespace-only fails
with EmptyArgument; otherwise the string passes through unchanged. -/
def ensure_not_empty (s : String) : Except ErrorKind String :=
  if isBlank s then .error .EmptyArgument else .ok s

/-- Modelled from the spec, section 4.1: compute_validity (cert/mod.rs is not
under src/) parses the expiration string as an ISO-8601 timestamp and returns
parsed minus now, in whole seconds, possibly negative; an empty or
whitespace-only string fails with EmptyArgument, an unparseable one with
InvalidTimestamp. The ISO-8601 parse and the current instant are external
collaborators, passed in explicitly. -/
def compute_validity (parse_iso : String → Option Int) (now : Int)
    (expiration : String) : Except ErrorKind Int :=
  if isBlank expiration then .error .EmptyArgument
  else
    match parse_iso expiration with
    | none => .error .InvalidTimestamp
    | some t => .ok (t - now)

/-- Modelled from the spec, section 4.3 stage ClampOrReject (the
ensure_range! macro of edgelet-utils is not under src/): a duration below the
lower bound fails with OutOfRange carrying the bounds; otherwise the duration
is clamped to the upper bound. -/
def ensure_range (v low high : Int) : Except ErrorKind Int :=
  if v < low then .error (.OutOfRange low high) else .ok (min v high)

/-- The Rust cast of an i64 to u64 (server.rs line 62, the cast_sign_loss
site): reinterpretation of the value modulo 2^64. -/
def u64_of_i64 (x : Int) : Nat := (x % (2 : Int) ^ 64).toNat

/-- Modelled from the spec, section 4.4 Response Mapper (refresh_cert in
cert/mod.rs is not under src/): a store failure becomes StoreError wrapping
the cause; on success the certificate's PEM, private key and valid-to are
read, any failed read becoming IoError, and the response is 201 Created with
the private key tagged key for inline bytes or ref for a reference. The
second component records the properties passed to the store's create call. -/
def refresh_cert (create : CertificateProperties → Except String Cert)
    (props : CertificateProperties) :
    Except ErrorKind Response × List CertificateProperties :=
  (match create props with
   | .error cause => .error (.StoreError cause)
   | .ok cert =>
     match cert.pem, cert.private_key, cert.get_valid_to with
     | .ok pem, .ok (.Key k), .ok vt =>
         .ok { status := 201,
               body := .success
                 { certificate := pem,
                   private_key := { type_ := "key", bytes := some k, ref_ := none },
                   expiration := vt } }
     | .ok pem, .ok (.Ref r), .ok vt =>
         .ok { status := 201,
               body := .success
                 { certificate := pem,
                   private_key := { type_ := "ref", bytes := none, ref_ := some r },
                   expiration := vt } }
     | _, _, _ => .error .IoError,
   [props])

/-- Modelled from the spec, section 6: the routing layer's named path
captures (edgelet-http's route::Parameters is not under src/), a list of
optionally named captures, as built by Parameters::with_captures in the
server.rs tests. -/
structure Parameters where
  captures : List (Option String × String)

/-- Look up a named capture: the value of the first capture whose name
matches. -/
def Parameters.name (params : Parameters) (key : String) : Option String :=
  (params.captures.find? (fun c => c.1 = some key)).map (fun c => c.2)

/-- The deserialized request body (workload::models::ServerCertificateRequest,
external model crate): common name and expiration timestamp string. -/
structure ServerCertificateRequest where
  common_name : String
  expiration : String
  deriving DecidableEq, Repr

/-- External collaborators of the handler, passed explicitly: the JSON body
deserializer, the ISO-8601 timestamp parser (yielding an instant in seconds),
the current instant, and the certificate store's create capability. -/
structure Env where
  parse_body : String → Option ServerCertificateRequest
  parse_iso : String → Option Int
  now : Int
  create : CertificateProperties → Except String Cert

/-- The body-processing chain of handle (server.rs lines 47 to 68): parse the
body (failure is BadBody), check the expiration is not empty, compute the
validity, range-check and clamp it, check the common name is not empty, build
the CertificateProperties with the u64 cast of the checked duration, and call
refresh_cert. The second component records the store create calls made. -/
def pipeline (env : Env) (max_duration : Int) (cert_alias : String)
    (body : String) : Except ErrorKind Response × List CertificateProperties :=
  match env.parse_body body with
  | none => (.error .BadBody, [])
  | some cert_req =>
    match ensure_not_empty cert_req.expiration with
    | .error e => (.error e, [])
    | .ok exp_str =>
      match compute_validity env.parse_iso env.now exp_str with
      | .error e => (.error e, [])
      | .ok expiration =>
        match ensure_range expiration 0 max_duration with
        | .error e => (.error e, [])
        | .ok checked =>
          match ensure_not_empty cert_req.common_name with
          | .error e => (.error e, [])
          | .ok cn =>
            refresh_cert env.create
              { validity_in_secs := u64_of_i64 checked,
                common_name := cn,
                cert_alias := cert_alias,
                certificate_type := .Server }

/-- The handler (server.rs lines 44 to 78): if both the name and genid
captures are present, derive the alias by concatenation and run the pipeline,
mapping a pipeline error to its response; if either capture is absent, answer
BadParam immediately. The second component records the store create calls. -/
def handle (env : Env) (max_duration : Int) (params : Parameters)
    (body : String) : Response × List CertificateProperties :=
  match params.name "name", params.name "genid" with
  | some module_id, some genid =>
    let cert_alias := module_id ++ genid ++ "server"
    let result := pipeline env max_duration cert_alias body
    (match result.1 with
     | .ok resp => resp
     | .error e => into_response e,
     result.2)
  | none, _ => (into_response .BadParam, [])
  | _, none => (into_response .BadParam, [])

/-! The logging decorator, embedded from edgelet-http/src/logging.rs. -/

/-- An HTTP request as the logging decorator sees it: method, path, optional
query string, protocol version, headers, and the optional process identifier
attached to the request's extensions. The process identifier is modelled by
its display text (edgelet-core's Pid type is not under src/). -/
structure HttpRequest where
  method : String
  path : String
  query : Option String
  version : String
  headers : List (String × String)
  pid : Option String

/-- An HTTP response as the logging decorator sees it: an opaque status
display, headers, and an opaque body. -/
structure HttpResponse where
  status : String
  headers : List (String × String)
  resp_body : String
  deriving DecidableEq, Repr

/-- Header lookup: the value of the first header with the given name. -/
def headerGet (headers : List (String × String)) (key : String) :
    Option String :=
  (headers.find? (fun h => h.1 = key)).map (fun h => h.2)

/-- The logging decorator (logging.rs lines 14 to 24): an immutable label
wrapping an inner handler. The inner handler's resolved outcome is a response
or an error. -/
structure LoggingService (E : Type) where
  label : String
  inner : HttpRequest → Except E HttpResponse

/-- The pending state built by LoggingService::call (logging.rs lines 26 to
32): the inner future's resolved outcome plus the data captured from the
request before delegating. -/
structure ResponseFuture (E : Type) where
  inner : Except E HttpResponse
  label : String
  request : String
  user_agent : String
  pid : Option String

/-- LoggingService::call (logging.rs lines 77 to 99): capture the request
line (path with query string when present), the user-agent header defaulting
to a dash, and the process id from the request's extensions, then delegate to
the inner handler. -/
def LoggingService.call (svc : LoggingService E) (req : HttpRequest) :
    ResponseFuture E :=
  let uri :=
    match req.query with
    | none => req.path
    | some q => req.path ++ "?" ++ q
  let request := req.method ++ " " ++ uri ++ " " ++ req.version
  let user_agent := (headerGet req.headers "user-agent").getD "-"
  { inner := svc.inner req,
    label := svc.label,
    request := request,
    user_agent := user_agent,
    pid := req.pid }

/-- The access-log line emitted by ResponseFuture::poll (logging.rs lines 54
to 63), with the completion timestamp passed in as text. -/
def logLine (label now request : String) (status : String)
    (body_length user_agent pid : String) : String :=
  "[" ++ label ++ "] - - - [" ++ now ++ "] \"" ++ request ++ "\" " ++
    status ++ " " ++ body_length ++ " \"-\" \"" ++ user_agent ++ "\" pid(" ++
    pid ++ ")"

/-- ResponseFuture::poll (logging.rs lines 41 to 65): an inner error is
propagated unchanged (try_ready! returns before any logging, so no log line
is emitted); on an inner response, read the content-length header defaulting
to a dash, render the process id defaulting to a dash, emit one log line,
and yield the response unchanged. The second component is the list of log
lines emitted by this poll. -/
def ResponseFuture.poll (fut : ResponseFuture E) (now : String) :
    Except E HttpResponse × List String :=
  match fut.inner with
  | .error e => (.error e, [])
  | .ok response =>
    let body_length := (headerGet response.headers "content-length").getD "-"
    let pid := match fut.pid with
      | none => "-"
      | some p => p
    (.ok response,
      [logLine fut.label now fut.request response.status body_length
        fut.user_agent pid])

/-! Concrete fixtures used by witnesses and counterexamples. -/

/-- Route parameters carrying name beeblebrox and genid I, as in the
server.rs tests. -/
def paramsBI : Parameters :=
  { captures := [(some "name", "beeblebrox"), (some "genid", "I")] }

/-- Route parameters with a present but empty name capture. -/
def paramsEmptyName : Parameters :=
  { captures := [(some "name", ""), (some "genid", "I")] }

/-- Route parameters with no captures at all, as Parameters::new() in the
missing_name test. -/
def paramsNone : Parameters := { captures := [] }

/-- A store certificate carrying inline PEM key bytes Betelgeuse. -/
def certKey : Cert :=
  { pem := .ok "CERTPEM",
    private_key := .ok (.Key "Betelgeuse"),
    get_valid_to := .ok 424242 }

/-- A store certificate carrying a key reference Betelgeuse. -/
def certRef : Cert :=
  { pem := .ok "CERTPEM",
    private_key := .ok (.Ref "Betelgeuse"),
    get_valid_to := .ok 424242 }

/-- An environment whose deserializer accepts the single body GOODBODY as a
request with common name marvin and an expiration 7000 hours (25 200 000
seconds) after the current instant, and whose store returns certKey. -/
def envK : Env :=
  { parse_body := fun b =>
      if b = "GOODBODY" then
        some { common_name := "marvin", expiration := "EXP7000H" }
      else none,
    parse_iso := fun s => if s = "EXP7000H" then some 25200000 else none,
    now := 0,
    create := fun _ => .ok certKey }

/-- Like envK but the store returns certRef. -/
def envR : Env :=
  { parse_body := envK.parse_body,
    parse_iso := envK.parse_iso,
    now := 0,
    create := fun _ => .ok certRef }

/-- An environment whose parses always fail and whose store always fails. -/
def envFail : Env :=
  { parse_body := fun _ => none,
    parse_iso := fun _ => none,
    now := 0,
    create := fun _ => .error "An IO error occurred" }

/-- An environment whose deserializer accepts the body PASTBODY as a request
whose expiration lies 100 seconds in the past. -/
def envPast : Env :=
  { parse_body := fun b =>
      if b = "PASTBODY" then
        some { common_name := "marvin", expiration := "EXPPAST" }
      else none,
    parse_iso := fun s => if s = "EXPPAST" then some (-100) else none,
    now := 0,
    create := fun _ => .ok certKey }

/-- An inner handler that always succeeds with respNoLen. -/
def respNoLen : HttpResponse :=
  { status := "200 OK", headers := [], resp_body := "hello" }

/-- A bare request: no query, no headers, no process id. -/
def reqBare : HttpRequest :=
  { method := "GET", path := "/modules", query := none,
    version := "HTTP/1.1", headers := [], pid := none }

/-- A logging decorator over an inner handler that always succeeds. -/
def svcOk : LoggingService String :=
  { label := "mgmt", inner := fun _ => .ok respNoLen }

/-- A logging decorator over an inner handler that always fails. -/
def svcErr : LoggingService String :=
  { label := "mgmt", inner := fun _ => .error "connection reset" }

/-! Helper lemmas shared by the claim theorems. -/

/-- The i64 to u64 cast is value preserving on in-range values. -/
theorem u64_of_i64_eq_toNat (x : Int) (h0 : 0 ≤ x)
    (h1 : x < (2 : Int) ^ 64) : u64_of_i64 x = x.toNat := by
  unfold u64_of_i64
  rw [Int.emod_eq_of_lt h0 h1]

/-- Every create call recorded by the pipeline carries exactly the alias the
pipeline was given, together with the Server certificate type. -/
theorem pipeline_calls_alias (env : Env) (max_duration : Int)
    (cert_alias : String) (body : String) :
    ∀ p ∈ (pipeline env max_duration cert_alias body).2,
      p.cert_alias = cert_alias ∧ p.certificate_type = .Server := by
  intro p hp
  unfold pipeline at hp
  split at hp
  · simp at hp
  · split at hp
    · simp at hp
    · split at hp
      · simp at hp
      · split at hp
        · simp at hp
        · split at hp
          · simp at hp
          · unfold refresh_cert at hp
            simp at hp
            subst hp
            exact ⟨rfl, rfl⟩

/-- A successful pipeline response always has status 201. -/
theorem pipeline_ok_status (env : Env) (max_duration : Int)
    (cert_alias : String) (body : String) (resp : Response)
    (h : (pipeline env max_duration cert_alias body).1 = .ok resp) :
    resp.status = 201 := by
  unfold pipeline at h
  split at h
  · simp at h
  · split at h
    · simp at h
    · split at h
      · simp at h
      · split at h
        · simp at h
        · split at h
          · simp at h
          · unfold refresh_cert at h
            simp only at h
            split at h
            · simp at h
            · split at h <;>
                first
                | (simp only [Except.ok.injEq] at h; subst h; rfl)
                | simp at h

/-- Under a parsed body and a parseable non-blank expiration, the pipeline
reduces to the range check followed by the common-name check and the store
call. -/
theorem pipeline_eq (env : Env) (max_duration : Int) (cert_alias : String)
    (body : String) (cr : ServerCertificateRequest) (t : Int)
    (h3 : env.parse_body body = some cr)
    (h4 : isBlank cr.expiration = false)
    (h5 : env.parse_iso cr.expiration = some t) :
    pipeline env max_duration cert_alias body =
      match ensure_range (t - env.now) 0 max_duration with
      | .error e => (.error e, [])
      | .ok checked =>
        match ensure_not_empty cr.common_name with
        | .error e => (.error e, [])
        | .ok cn =>
          refresh_cert env.create
            { validity_in_secs := u64_of_i64 checked,
              common_name := cn,
              cert_alias := cert_alias,
              certificate_type := .Server } := by
  simp [pipeline, h3, ensure_not_empty, h4, compute_validity, h5]

/-! Claim theorems. -/

/-- C2: when the routing capture name or the routing capture genid is absent,
handle answers 400 with body message exactly Bad parameter, the store's
create is never invoked (no recorded call), and the body is never read (the
result does not depend on the body). -/
theorem c2_missing_param_bad_request (env : Env) (max_duration : Int)
    (params : Parameters) (body : String)
    (h : params.name "name" = none ∨ params.name "genid" = none) :
    handle env max_duration params body =
      ({ status := 400, body := .failure "Bad parameter" }, []) ∧
    ∀ body' : String,
      handle env max_duration params body' =
        handle env max_duration params body := by
  have hmain : ∀ b : String, handle env max_duration params b =
      ({ status := 400, body := .failure "Bad parameter" }, []) := by
    intro b
    rcases h with h | h
    · simp [handle, h, into_response, ErrorKind.status, ErrorKind.message]
    · cases hn : params.name "name" with
      | none =>
          simp [handle, hn, into_response, ErrorKind.status, ErrorKind.message]
      | some m =>
          simp [handle, hn, h, into_response, ErrorKind.status,
            ErrorKind.message]
  exact ⟨hmain body, fun body' => (hmain body').trans (hmain body).symm⟩

/-- Witness for C2 at the concrete input of the missing_name test. -/
theorem c2_missing_param_bad_request_witness :
    handle envFail 7200 paramsNone "x" =
      ({ status := 400, body := .failure "Bad parameter" }, []) :=
  (c2_missing_param_bad_request envFail 7200 paramsNone "x"
    (Or.inl (by decide))).1

/-- C5 counterexample: with the name capture present but empty, handle does
not fail with Bad parameter; it runs the pipeline (here an unparseable body
yields Bad body), and with a parseable body the store is invoked. -/
theorem c5_counterexample :
    (handle envFail 7200 paramsEmptyName "x").1 =
      { status := 400, body := .failure "Bad body" } ∧
    (handle envFail 7200 paramsEmptyName "x").1 ≠
      into_response .BadParam ∧
    (handle envK 7200 paramsEmptyName "GOODBODY").2 ≠ [] := by
  exact ⟨by decide, by decide, by decide⟩

/-- C5 amended: only the absence of a routing identifier aborts with
BadParam before the body is read; a present-but-empty identifier is accepted
and the pipeline starts, so an unparseable body then yields BadBody. -/
theorem c5_amended_presence_suffices (env : Env) (max_duration : Int)
    (params : Parameters) (body : String) (m g : String)
    (h1 : params.name "name" = some m) (h2 : params.name "genid" = some g)
    (h3 : env.parse_body body = none) :
    handle env max_duration params body = (into_response .BadBody, []) := by
  simp [handle, h1, h2, pipeline, h3]

/-- Witness for the amended C5 at an empty module id. -/
theorem c5_amended_presence_suffices_witness :
    handle envFail 7200 paramsEmptyName "x" = (into_response .BadBody, []) :=
  c5_amended_presence_suffices envFail 7200 paramsEmptyName "x" "" "I"
    (by decide) (by decide) rfl

/-- C6: the alias passed to the store is the pure concatenation of the module
id, the generation id and the role suffix server, with no normalization. -/
theorem c6_alias_concatenation (env : Env) (max_duration : Int)
    (params : Parameters) (body : String) (m g : String)
    (h1 : params.name "name" = some m) (h2 : params.name "genid" = some g) :
    ∀ p ∈ (handle env max_duration params body).2,
      p.cert_alias = m ++ g ++ "server" := by
  intro p hp
  simp only [handle, h1, h2] at hp
  exact (pipeline_calls_alias env max_duration (m ++ g ++ "server") body
    p hp).1

/-- Witness for C6: the recorded store call of a successful run for module
beeblebrox, generation I carries alias beeblebroxIserver. -/
theorem c6_alias_concatenation_witness :
    ({ validity_in_secs := 7200, common_name := "marvin",
       cert_alias := "beeblebroxIserver",
       certificate_type := .Server } : CertificateProperties).cert_alias =
      "beeblebrox" ++ "I" ++ "server" :=
  c6_alias_concatenation envK 7200 paramsBI "GOODBODY" "beeblebrox" "I"
    (by decide) (by decide) _ (by decide)

/-- C7: when the wrapped handler resolves to a response, the logging
decorator yields that exact response unchanged. -/
theorem c7_response_passthrough {E : Type} (svc : LoggingService E)
    (req : HttpRequest) (resp : HttpResponse) (now : String)
    (h : svc.inner req = .ok resp) :
    ((svc.call req).poll now).1 = .ok resp := by
  simp [LoggingService.call, ResponseFuture.poll, h]

/-- Witness for C7 at a concrete service and request. -/
theorem c7_response_passthrough_witness :
    ((svcOk.call reqBare).poll "TS").1 = .ok respNoLen :=
  c7_response_passthrough svcOk reqBare respNoLen "TS" rfl

/-- C10: when the wrapped handler resolves to an error, the logging decorator
propagates that error unchanged and emits no log line. -/
theorem c10_error_propagation {E : Type} (svc : LoggingService E)
    (req : HttpRequest) (e : E) (now : String)
    (h : svc.inner req = .error e) :
    (svc.call req).poll now = (.error e, []) := by
  simp [LoggingService.call, ResponseFuture.poll, h]

/-- Witness for C10 at a concrete service and request. -/
theorem c10_error_propagation_witness :
    (svcErr.call reqBare).poll "TS" = (.error "connection reset", []) :=
  c10_error_propagation svcErr reqBare "connection reset" "TS" rfl

/-- C1: with both routing identifiers supplied, a parseable body and a
parseable non-blank expiration, a negative computed duration fails with
OutOfRange carrying the bounds 0 and max_duration and the store is never
invoked; a non-negative duration makes every recorded store call carry
validity_in_secs equal to the clamp min duration max_duration, and with a
non-blank common name the store is invoked exactly once with that clamped
validity. -/
theorem c1_clamp_or_reject (env : Env) (max_duration : Int)
    (params : Parameters) (body : String) (m g : String)
    (cr : ServerCertificateRequest) (t : Int)
    (h1 : params.name "name" = some m) (h2 : params.name "genid" = some g)
    (h3 : env.parse_body body = some cr)
    (h4 : isBlank cr.expiration = false)
    (h5 : env.parse_iso cr.expiration = some t)
    (h6 : 0 ≤ max_duration) (h7 : max_duration < (2 : Int) ^ 63) :
    (t - env.now < 0 →
      handle env max_duration params body =
        (into_response (.OutOfRange 0 max_duration), [])) ∧
    (0 ≤ t - env.now →
      ∀ p ∈ (handle env max_duration params body).2,
        (p.validity_in_secs : Int) = min (t - env.now) max_duration) ∧
    (0 ≤ t - env.now → isBlank cr.common_name = false →
      (handle env max_duration params body).2 =
        [{ validity_in_secs := (min (t - env.now) max_duration).toNat,
           common_name := cr.common_name,
           cert_alias := m ++ g ++ "server",
           certificate_type := .Server }]) := by
  have hpe := pipeline_eq env max_duration (m ++ g ++ "server") body cr t
    h3 h4 h5
  have hlt : min (t - env.now) max_duration < (2 : Int) ^ 64 :=
    lt_of_le_of_lt (min_le_right _ _) (lt_trans h7 (by norm_num))
  refine ⟨?_, ?_, ?_⟩
  · intro hd
    simp only [handle, h1, h2]
    rw [hpe]
    unfold ensure_range
    rw [if_pos hd]
  · intro hd p hp
    have h0 : 0 ≤ min (t - env.now) max_duration := le_min hd h6
    simp only [handle, h1, h2] at hp
    rw [hpe] at hp
    unfold ensure_range at hp
    rw [if_neg (not_lt.mpr hd)] at hp
    cases hcn : isBlank cr.common_name with
    | false =>
        simp [ensure_not_empty, hcn, refresh_cert] at hp
        subst hp
        show ((u64_of_i64 (min (t - env.now) max_duration) : Nat) : Int) =
          min (t - env.now) max_duration
        rw [u64_of_i64_eq_toNat _ h0 hlt]
        exact Int.toNat_of_nonneg h0
    | true =>
        simp [ensure_not_empty, hcn] at hp
  · intro hd hcn
    have h0 : 0 ≤ min (t - env.now) max_duration := le_min hd h6
    simp only [handle, h1, h2]
    rw [hpe]
    unfold ensure_range
    rw [if_neg (not_lt.mpr hd)]
    simp [ensure_not_empty, hcn, refresh_cert,
      u64_of_i64_eq_toNat _ h0 hlt]

/-- Witness for C1: maxDuration 7200 with an expiration 7000 hours
(25 200 000 seconds) in the future makes the store receive exactly 7200. -/
theorem c1_clamp_or_reject_witness :
    (handle envK 7200 paramsBI "GOODBODY").2 =
      [{ validity_in_secs := 7200, common_name := "marvin",
         cert_alias := "beeblebroxIserver",
         certificate_type := .Server }] := by
  have h := (c1_clamp_or_reject envK 7200 paramsBI "GOODBODY" "beeblebrox"
    "I" { common_name := "marvin", expiration := "EXP7000H" } 25200000
    (by decide) (by decide) (by decide) (by decide) (by decide) (by decide)
    (by decide)).2.2 (by decide) (by decide)
  exact h.trans (by decide)

/-- C3: with the pipeline reaching the store and the store returning a
certificate whose key material is inline bytes k, the response is 201 with
the private key tagged key carrying bytes k; with a reference r, the
response is 201 with the private key tagged ref carrying r. -/
theorem c3_private_key_variants (env : Env) (max_duration : Int)
    (params : Parameters) (body : String) (m g : String)
    (cr : ServerCertificateRequest) (t : Int) (c : Cert) (pem : String)
    (vt : Int)
    (h1 : params.name "name" = some m) (h2 : params.name "genid" = some g)
    (h3 : env.parse_body body = some cr)
    (h4 : isBlank cr.expiration = false)
    (h5 : env.parse_iso cr.expiration = some t)
    (hd : 0 ≤ t - env.now)
    (hcn : isBlank cr.common_name = false)
    (hcreate : ∀ p, env.create p = .ok c)
    (hpem : c.pem = .ok pem) (hvt : c.get_valid_to = .ok vt) :
    (∀ k, c.private_key = .ok (.Key k) →
      (handle env max_duration params body).1 =
        { status := 201,
          body := .success
            { certificate := pem,
              private_key :=
                { type_ := "key", bytes := some k, ref_ := none },
              expiration := vt } }) ∧
    (∀ r, c.private_key = .ok (.Ref r) →
      (handle env max_duration params body).1 =
        { status := 201,
          body := .success
            { certificate := pem,
              private_key :=
                { type_ := "ref", bytes := none, ref_ := some r },
              expiration := vt } }) := by
  have hpe := pipeline_eq env max_duration (m ++ g ++ "server") body cr t
    h3 h4 h5
  constructor
  · intro k hk
    simp only [handle, h1, h2]
    rw [hpe]
    unfold ensure_range
    rw [if_neg (not_lt.mpr hd)]
    simp [ensure_not_empty, hcn, refresh_cert, hcreate, hpem, hk, hvt]
  · intro r hr
    simp only [handle, h1, h2]
    rw [hpe]
    unfold ensure_range
    rw [if_neg (not_lt.mpr hd)]
    simp [ensure_not_empty, hcn, refresh_cert, hcreate, hpem, hr, hvt]

/-- Witness for C3 with the inline key bytes Betelgeuse, as in the
succeeds_key test. -/
theorem c3_private_key_variants_witness :
    (handle envK 7200 paramsBI "GOODBODY").1 =
      { status := 201,
        body := .success
          { certificate := "CERTPEM",
            private_key :=
              { type_ := "key", bytes := some "Betelgeuse", ref_ := none },
            expiration := 424242 } } :=
  (c3_private_key_variants envK 7200 paramsBI "GOODBODY" "beeblebrox" "I"
    { common_name := "marvin", expiration := "EXP7000H" } 25200000 certKey
    "CERTPEM" 424242 (by decide) (by decide) (by decide) (by decide)
    (by decide) (by decide) (by decide) (fun _ => rfl) rfl rfl).1
    "Betelgeuse" rfl

/-- C9: whenever the range check on the computed duration passes, the checked
value is non-negative and bounded by max_duration, the i64 to u64 cast is
value preserving on it, and the stored u64 never exceeds max_duration
reinterpreted as u64. -/
theorem c9_cast_sign_safety (d max_duration v : Int)
    (h : ensure_range d 0 max_duration = .ok v)
    (h6 : 0 ≤ max_duration) (h7 : max_duration < (2 : Int) ^ 63) :
    (u64_of_i64 v : Int) = v ∧ 0 ≤ v ∧ v ≤ max_duration ∧
      u64_of_i64 v ≤ u64_of_i64 max_duration := by
  unfold ensure_range at h
  by_cases hd : d < 0
  · rw [if_pos hd] at h
    exact absurd h (by simp)
  · rw [if_neg hd] at h
    have hv : v = min d max_duration := by
      injection h with h'
      exact h'.symm
    have h0 : 0 ≤ v := hv ▸ le_min (not_lt.mp hd) h6
    have hvm : v ≤ max_duration := hv ▸ min_le_right _ _
    have hbig : max_duration < (2 : Int) ^ 64 := lt_trans h7 (by norm_num)
    have hlt : v < (2 : Int) ^ 64 := lt_of_le_of_lt hvm hbig
    refine ⟨?_, h0, hvm, ?_⟩
    · rw [u64_of_i64_eq_toNat v h0 hlt]
      exact Int.toNat_of_nonneg h0
    · rw [u64_of_i64_eq_toNat v h0 hlt, u64_of_i64_eq_toNat _ h6 hbig]
      exact Int.toNat_le_toNat hvm

/-- Witness for C9 at duration 100 and maximum 7200. -/
theorem c9_cast_sign_safety_witness :
    (u64_of_i64 100 : Int) = 100 ∧ (0 : Int) ≤ 100 ∧ (100 : Int) ≤ 7200 ∧
      u64_of_i64 100 ≤ u64_of_i64 7200 :=
  c9_cast_sign_safety 100 7200 100 rfl (by decide) (by decide)

/-- C8: on a completed request exactly one log line is emitted, of the form
bracketed label, three dashes, bracketed timestamp, the quoted request line
(method, path with query string when present, version), the status, the
content length or a dash, a quoted dash, the quoted user agent or a dash,
and the process id or a dash inside pid parentheses. -/
theorem c8_log_line_format {E : Type} (svc : LoggingService E)
    (req : HttpRequest) (resp : HttpResponse) (now : String)
    (h : svc.inner req = .ok resp) :
    (svc.call req).poll now =
      (.ok resp,
       ["[" ++ svc.label ++ "] - - - [" ++ now ++ "] \"" ++
        (req.method ++ " " ++
          (match req.query with
           | none => req.path
           | some q => req.path ++ "?" ++ q) ++ " " ++ req.version) ++
        "\" " ++ resp.status ++ " " ++
        (match headerGet resp.headers "content-length" with
         | none => "-"
         | some l => l) ++ " \"-\" \"" ++
        (match headerGet req.headers "user-agent" with
         | none => "-"
         | some ua => ua) ++ "\" pid(" ++
        (match req.pid with
         | none => "-"
         | some p => p) ++ ")"]) := by
  cases hq : req.query <;>
    cases hua : headerGet req.headers "user-agent" <;>
    cases hcl : headerGet resp.headers "content-length" <;>
    cases hpid : req.pid <;>
    simp [LoggingService.call, ResponseFuture.poll, logLine, h, hq, hua,
      hcl, hpid]

/-- Witness for C8: a request with no user agent, no content length and no
process id logs a dash in each of those positions. -/
theorem c8_log_line_format_witness :
    (svcOk.call reqBare).poll "TS" =
      (.ok respNoLen,
       ["[mgmt] - - - [TS] \"GET /modules HTTP/1.1\" 200 OK - \"-\" \"-\" pid(-)"]) := by
  have h := c8_log_line_format svcOk reqBare respNoLen "TS" rfl
  exact h.trans rfl

/-- C4: every error maps to status 400 exactly for BadParam and BadBody and
to status 500 otherwise, with the body a message record built from the
error's display text; and every response of handle is either the 201 success
or the mapping of exactly one error. -/
theorem c4_error_taxonomy_mapping :
    (∀ e : ErrorKind,
      (into_response e).status = 400 ∨ (into_response e).status = 500) ∧
    (∀ e : ErrorKind,
      ((into_response e).status = 400 ↔ e = .BadParam ∨ e = .BadBody)) ∧
    (∀ e : ErrorKind, (into_response e).body = .failure e.message) ∧
    (∀ (env : Env) (max_duration : Int) (params : Parameters)
        (body : String),
      (handle env max_duration params body).1.status = 201 ∨
      ∃ e : ErrorKind,
        (handle env max_duration params body).1 = into_response e) := by
  refine ⟨?_, ?_, ?_, ?_⟩
  · intro e
    cases e <;> simp [into_response, ErrorKind.status]
  · intro e
    cases e <;> simp [into_response, ErrorKind.status]
  · intro e
    rfl
  · intro env max_duration params body
    cases hn : params.name "name" with
    | none => exact Or.inr ⟨.BadParam, by simp [handle, hn]⟩
    | some m =>
      cases hg : params.name "genid" with
      | none => exact Or.inr ⟨.BadParam, by simp [handle, hn, hg]⟩
      | some g =>
        cases hp : (pipeline env max_duration (m ++ g ++ "server") body).1
          with
        | error e => exact Or.inr ⟨e, by simp [handle, hn, hg, hp]⟩
        | ok r =>
          left
          have hs := pipeline_ok_status env max_duration
            (m ++ g ++ "server") body r hp
          simp [handle, hn, hg, hp, hs]

end Edgelet
